import Mathlib

/-!
Verification of the CLI configuration resolver in
`interpreter/terminal_interface/start_terminal_interface.py`.

The Python module parses command-line arguments against a schema, applies
mode expansion (fast / vision / os / local), binds parsed values onto the
`interpreter` object and its `llm` sub-object, applies a profile, re-binds,
infers model defaults and finally rewrites the model name when an api_base
is set.  Everything below is a shallow embedding of that module: Python
`None` becomes `Option.none`, the mutable `interpreter` object becomes the
`InterpreterState` structure threaded through explicit state-passing
functions, console / subprocess side effects become an explicit `Event`
trace, and the external profile loader becomes a function parameter.
-/

namespace STI

set_option maxRecDepth 40000

/-- Python `s.startswith(pre)`, on the character list of the string. -/
def strStarts (s pre : String) : Bool := pre.data.isPrefixOf s.data

/-- Python `s.lower()` (the source only lowercases ASCII model names). -/
def strLower (s : String) : String := ⟨s.data.map Char.toLower⟩

/-- Python `s[n:]`: drop the first `n` characters. -/
def strDrop (s : String) (n : Nat) : String := ⟨s.data.drop n⟩

/-- Helper for the substring test: does `pat` occur in the list? -/
def hasSubAux (pat : List Char) : List Char → Bool
  | [] => pat.isEmpty
  | c :: t => pat.isPrefixOf (c :: t) || hasSubAux pat t

/-- Python `pat in s` (substring containment). -/
def strHas (s pat : String) : Bool := hasSubAux pat.data s.data

/-- Python truthiness of an optional bool (`if args.fast:`). -/
def truthyB : Option Bool → Bool
  | some b => b
  | none => false

/-- Python truthiness of an optional string (`if not args.model:` is its negation). -/
def truthyStr : Option String → Bool
  | some s => s != ""
  | none => false

/-- Join lines with newlines: the newline structure of a Python triple-quoted
literal, kept at line granularity so that the offline line-strip is provable. -/
def joinLines : List String → String
  | [] => ""
  | [l] => l
  | l :: ls => l ++ "\n" ++ joinLines ls

/-- Python `sep.join(xs)`. -/
def joinSep (sep : String) : List String → String
  | [] => ""
  | [x] => x
  | x :: xs => x ++ sep ++ joinSep sep xs

/-- The `interpreter.llm` sub-object: exactly the fields the module binds,
reads or mutates.  Fields the module tests with `is None` / truthiness are
`Option`s. -/
structure LLMConfig where
  model : String
  temperature : Option ℚ
  supports_vision : Bool
  supports_functions : Option Bool
  context_window : Option Int
  max_tokens : Option Int
  max_budget : Option ℚ
  api_base : Option String
  api_key : Option String
  api_version : Option String
deriving DecidableEq, Repr

/-- The mutable `interpreter` object: exactly the fields the module binds,
reads or mutates. -/
structure InterpreterState where
  custom_instructions : String
  system_message : String
  auto_run : Bool
  verbose : Bool
  max_output : Int
  force_task_completion : Bool
  disable_telemetry : Bool
  offline : Bool
  speak_messages : Bool
  safe_mode : String
  debug : Bool
  multi_line : Bool
  os : Bool
  llm : LLMConfig
deriving DecidableEq, Repr

/-- The optional-arity `--reset_profile` flag has three raw states on the
command line: absent, present with no value, present with a value. -/
inductive ResetProfileArg where
  | absent
  | bare
  | withName (s : String)
deriving DecidableEq, Repr

/-- What the user literally typed: for each option of the schema, whether the
flag was supplied and with which value.  `store_true` booleans are `Bool`
(present = true); `BooleanOptionalAction` options are `Option Bool`
(also a negated form); value options are `Option`s of their type. -/
structure RawCLI where
  profile : Option String
  custom_instructions : Option String
  system_message : Option String
  auto_run : Bool
  verbose : Bool
  model : Option String
  temperature : Option ℚ
  llm_supports_vision : Option Bool
  llm_supports_functions : Option Bool
  context_window : Option Int
  max_tokens : Option Int
  max_budget : Option ℚ
  api_base : Option String
  api_key : Option String
  api_version : Option String
  max_output : Option Int
  force_task_completion : Bool
  disable_telemetry : Bool
  offline : Bool
  speak_messages : Bool
  safe_mode : Option String
  debug : Bool
  fast : Bool
  multi_line : Bool
  «local» : Bool
  vision : Bool
  os : Bool
  reset_profile : ResetProfileArg
  profiles : Bool
  local_models : Bool
  conversations : Bool
  server : Bool
  version : Bool
deriving DecidableEq, Repr

/-- A valid argument vector: the one enumerated option, `safe_mode`, carries
one of its declared choices (argparse rejects anything else at parse time). -/
def rawValid (raw : RawCLI) : Prop :=
  match raw.safe_mode with
  | some s => s = "off" ∨ s = "ask" ∨ s = "auto"
  | none => True

instance (raw : RawCLI) : Decidable (rawValid raw) := by
  unfold rawValid; exact match raw.safe_mode with
  | some _ => inferInstanceAs (Decidable (_ ∨ _))
  | none => inferInstanceAs (Decidable True)

/-- The `args` namespace argparse produces: the value of each destination
after defaults are filled in.  `None` is the absence marker for every option
with no declared default; `safe_mode` defaults to `"off"`, `disable_telemetry`
to `False`, `profile` to `"default.yaml"` and `reset_profile` to
`"NOT_PROVIDED"` (its `nargs="?"` makes a bare flag parse to `None`). -/
structure ParsedArgs where
  profile : Option String
  custom_instructions : Option String
  system_message : Option String
  auto_run : Option Bool
  verbose : Option Bool
  model : Option String
  temperature : Option ℚ
  llm_supports_vision : Option Bool
  llm_supports_functions : Option Bool
  context_window : Option Int
  max_tokens : Option Int
  max_budget : Option ℚ
  api_base : Option String
  api_key : Option String
  api_version : Option String
  max_output : Option Int
  force_task_completion : Option Bool
  disable_telemetry : Option Bool
  offline : Option Bool
  speak_messages : Option Bool
  safe_mode : Option String
  debug : Option Bool
  fast : Option Bool
  multi_line : Option Bool
  «local» : Option Bool
  vision : Option Bool
  os : Option Bool
  reset_profile : Option String
  profiles : Option Bool
  local_models : Option Bool
  conversations : Option Bool
  server : Option Bool
  version : Option Bool
deriving DecidableEq, Repr

/-- A `store_true` flag: argparse stores `True` when present, else the
declared default (here always `None` / `False`). -/
def storeTrue (present : Bool) : Option Bool :=
  if present then some true else none

/-- argparse on a raw command line.  Each destination gets the supplied value
or the schema default (`None` when the descriptor declares none). -/
def parseArgs (raw : RawCLI) : ParsedArgs where
  profile := some (raw.profile.getD "default.yaml")
  custom_instructions := raw.custom_instructions
  system_message := raw.system_message
  auto_run := storeTrue raw.auto_run
  verbose := storeTrue raw.verbose
  model := raw.model
  temperature := raw.temperature
  llm_supports_vision := raw.llm_supports_vision
  llm_supports_functions := raw.llm_supports_functions
  context_window := raw.context_window
  max_tokens := raw.max_tokens
  max_budget := raw.max_budget
  api_base := raw.api_base
  api_key := raw.api_key
  api_version := raw.api_version
  max_output := raw.max_output
  force_task_completion := storeTrue raw.force_task_completion
  disable_telemetry := some raw.disable_telemetry
  offline := storeTrue raw.offline
  speak_messages := storeTrue raw.speak_messages
  safe_mode := some (raw.safe_mode.getD "off")
  debug := storeTrue raw.debug
  fast := storeTrue raw.fast
  multi_line := storeTrue raw.multi_line
  «local» := storeTrue raw.«local»
  vision := storeTrue raw.vision
  os := storeTrue raw.os
  reset_profile :=
    match raw.reset_profile with
    | .absent => some "NOT_PROVIDED"
    | .bare => none
    | .withName s => some s
  profiles := storeTrue raw.profiles
  local_models := storeTrue raw.local_models
  conversations := storeTrue raw.conversations
  server := storeTrue raw.server
  version := storeTrue raw.version

/-- Binder step for one option: `set_attributes` writes the parsed value onto
the target field only when it is not `None`. -/
def setIf {α : Type} (v : Option α) (cur : α) : α :=
  match v with
  | some x => x
  | none => cur

/-- Binder step for a target field that is itself optional on the object
(`context_window` etc.): a supplied value `v` lands as `some v`. -/
def setIfOpt {α : Type} (v : Option α) (cur : Option α) : Option α :=
  match v with
  | some x => some x
  | none => cur

/-- `set_attributes(args, arguments)`: for every schema entry with an
`attribute` binding whose parsed value is not `None`, set the bound field of
the bound object.  Options without a binding (`profile`, the mode flags, the
dispatch flags, `reset_profile`) touch nothing. -/
def set_attributes (args : ParsedArgs) (st : InterpreterState) : InterpreterState :=
  { st with
      custom_instructions := setIf args.custom_instructions st.custom_instructions
      system_message := setIf args.system_message st.system_message
      auto_run := setIf args.auto_run st.auto_run
      verbose := setIf args.verbose st.verbose
      max_output := setIf args.max_output st.max_output
      force_task_completion := setIf args.force_task_completion st.force_task_completion
      disable_telemetry := setIf args.disable_telemetry st.disable_telemetry
      offline := setIf args.offline st.offline
      speak_messages := setIf args.speak_messages st.speak_messages
      safe_mode := setIf args.safe_mode st.safe_mode
      debug := setIf args.debug st.debug
      multi_line := setIf args.multi_line st.multi_line
      llm := { st.llm with
        model := setIf args.model st.llm.model
        temperature := setIfOpt args.temperature st.llm.temperature
        supports_vision := setIf args.llm_supports_vision st.llm.supports_vision
        supports_functions := setIfOpt args.llm_supports_functions st.llm.supports_functions
        context_window := setIfOpt args.context_window st.llm.context_window
        max_tokens := setIfOpt args.max_tokens st.llm.max_tokens
        max_budget := setIfOpt args.max_budget st.llm.max_budget
        api_base := setIfOpt args.api_base st.llm.api_base
        api_key := setIfOpt args.api_key st.llm.api_key
        api_version := setIfOpt args.api_version st.llm.api_version } }

/-- The guard right after the dispatch short-circuits: if `auto_run` and a
protective `safe_mode` are both already set on the incoming object, disable
`auto_run`.  It reads only the object, never the parsed arguments. -/
def safeModeGuard (st : InterpreterState) : InterpreterState :=
  if st.auto_run = true ∧ (st.safe_mode = "ask" ∨ st.safe_mode = "auto") then
    { st with auto_run := false }
  else st

/-- The fixed OS-control system prompt, line by line: the `.strip()`ed content
of the triple-quoted literal assigned to `interpreter.system_message`. -/
def osSystemMessageLines : List String :=
  [ "You are Open Interpreter, a world-class programmer that can complete any goal by executing code.",
    "",
    "When you write code, it will be executed **on the user's machine**. The user has given you **full and complete permission** to execute any code necessary to complete the task.",
    "",
    "When a user refers to a filename, they're likely referring to an existing file in the directory you're currently executing code in.",
    "",
    "In general, try to make plans with as few steps as possible. As for actually executing code to carry out that plan, **don't try to do everything in one code block.** You should try something, print information about it, then continue from there in tiny, informed steps. You will never get it on the first try, and attempting it in one go will often lead to errors you cant see.",
    "",
    "Manually summarize text.",
    "",
    "Do not try to write code that attempts the entire task at once, and verify at each step whether or not you're on track.",
    "",
    "# Computer",
    "",
    "You may use the `interpreter` Python module to complete tasks:",
    "",
    "```python",
    "interpreter.interpreter.computer.display.view() # Shows you what's on the screen, returns a `pil_image` `in case you need it (rarely). **You almost always want to do this first!**",
    "",
    "interpreter.interpreter.computer.keyboard.write(\"hello\")",
    "",
    "interpreter.interpreter.computer.mouse.click(\"text onscreen\") # This clicks on the UI element with that text. Use this **frequently** and get creative! To click a video, you could pass the *timestamp* (which is usually written on the thumbnail) into this.",
    "interpreter.interpreter.computer.mouse.move(\"open recent >\") # This moves the mouse over the UI element with that text. Many dropdowns will disappear if you click them. You have to hover over items to reveal more.",
    "interpreter.interpreter.computer.mouse.click(x=500, y=500) # Use this very, very rarely. It's highly inaccurate",
    "interpreter.interpreter.computer.mouse.click(icon=\"gear icon\") # Moves mouse to the icon with that description. Use this very often",
    "",
    "interpreter.interpreter.computer.mouse.scroll(-10) # Scrolls down. If you don't find some text on screen that you expected to be there, you probably want to do this",
    "x, y = interpreter.interpreter.computer.display.center() # Get your bearings",
    "",
    "interpreter.interpreter.computer.clipboard.view() # Returns contents of clipboard",
    "interpreter.interpreter.computer.os.get_selected_text() # Use frequently. If editing text, the user often wants this",
    "```",
    "",
    "For rare and complex mouse actions, consider using computer vision libraries on the `interpreter.interpreter.computer.display.view()` `pil_image` to produce a list of coordinates for the mouse to move/drag to.",
    "",
    "If the user highlighted text in an editor, then asked you to modify it, they probably want you to `interpreter.interpreter.computer.keyboard.write` over their version of the text.",
    "",
    "Tasks are 100% computer-based. DO NOT simply write long messages to the user to complete tasks. You MUST put your text back into the program they're using to deliver your text!",
    "",
    "Clicking text is the most reliable way to use the mouseâ€” for example, clicking a URL's text you see in the URL bar, or some textarea's placeholder text (like \"Search\" to get into a search bar).",
    "",
    "Applescript might be best for some tasks.",
    "",
    "If you use `plt.show()`, the resulting image will be sent to you. However, if you use `PIL.Image.show()`, the resulting image will NOT be sent to you.",
    "",
    "It is very important to make sure you are focused on the right application and window. Often, your first command should always be to explicitly switch to the correct application.",
    "",
    "When searching the web, use query parameters. For example, https://www.amazon.com/s?k=monitor",
    "",
    "Try multiple methods before saying the task is impossible. **You can do it!**",
    "",
    "# Critical Routine Procedure for Multi-Step Tasks",
    "",
    "Include `interpreter.interpreter.computer.display.view()` after a 2 second delay at the end of _every_ code block to verify your progress, then answer these questions in extreme detail:",
    "",
    "1. Generally, what is happening on-screen?",
    "2. What is the active app?",
    "3. What hotkeys does this app support that might get be closer to my goal?",
    "4. What text areas are active, if any?",
    "5. What text is selected?",
    "6. What options could you take next to get closer to your goal?" ]

/-- The one icon-based mouse-targeting line.  The source strips exactly this
line (with its trailing newline) from the prompt when `--offline` is set,
because icon finding calls a remote service. -/
def iconLine : String :=
  "interpreter.interpreter.computer.mouse.click(icon=\"gear icon\") # Moves mouse to the icon with that description. Use this very often"

/-- The OS-control system prompt as the single string the source stores. -/
def osSystemMessage : String := joinLines osSystemMessageLines

/-- The prompt after the offline strip.  The source runs a textual
`str.replace` of the icon line plus its newline with `""`; the line occurs
exactly once and as a whole line, so at line granularity the replace is the
removal of that line. -/
def osOfflineSystemMessage : String :=
  joinLines (osSystemMessageLines.filter (fun l => l != iconLine))

/-- Observable side effects of the resolver, in program order. -/
inductive Event where
  | displayMd (s : String)
  | printMsg (s : String)
  | printUnrecognized (tokens : List String)
  | printUsage
  | printVersion
  | prompt (s : String)
  | sleepSec (n : Nat)
  | runShell (cmd : String)
  | runPython (code : String) (display : Bool)
deriving DecidableEq, Repr

/-- The import environment the OS-control provisioner probes: which packages
`__import__` finds initially, after the first `pip` attempt and after the
second (`pip3`) attempt. -/
structure OsEnv where
  imp0 : String → Bool
  imp1 : String → Bool
  imp2 : String → Bool

/-- The optional native packages OS-control wants. -/
def packages : List String := ["cv2", "plyer", "pyautogui", "pyperclip", "pywinctl"]

/-- The install command, for `pip` and `pip3`. -/
def pipCommand (pipName : String) : String :=
  pipName ++ " install 'open-interpreter[os]'"

/-- The event trace of the OS-control provisioning flow (source lines
423-524): check imports, prompt on missing packages, run both pip installs
(breaking early once the originally-missing packages all import), warn about
residual failures, announce the mode, emit the api/screen-recording notices
and hand the computer module to the runtime. -/
def osProvisionEvents (env : OsEnv) (input : String) (args : ParsedArgs) : List Event :=
  let missing0 := packages.filter (fun p => !(env.imp0 p))
  let provision :=
    if missing0 ≠ [] then
      [Event.displayMd ("> **Missing Package(s): " ++
          joinSep ", " (missing0.map (fun p => "`" ++ p ++ "`")) ++
          "**\n\nThese packages are required for OS Control.\n\nInstall them?\n"),
        Event.prompt "(y/n) > "] ++
      (if strLower input ≠ "y" then
        [Event.printMsg "\nPlease try to install them manually.\n\n",
          Event.sleepSec 2,
          Event.printMsg "Attempting to start OS control anyway...\n\n"]
      else []) ++
      (let gotEm1 := missing0.all env.imp1
       let installs :=
         if gotEm1 then [Event.runShell (pipCommand "pip")]
         else [Event.runShell (pipCommand "pip"), Event.runShell (pipCommand "pip3")]
       let impNow := if gotEm1 then env.imp1 else env.imp2
       let missing1 := packages.filter (fun p => !(impNow p))
       installs ++
       (if missing1 ≠ [] then
         [Event.printMsg ("\n\nWarning: The following packages could not be installed: " ++
             joinSep ", " missing1),
          Event.printMsg "\nPlease try to install them manually.\n\n",
          Event.sleepSec 2,
          Event.printMsg "Attempting to start OS control anyway...\n\n"]
       else []))
    else []
  provision ++
  [Event.displayMd "> `OS Control` enabled"] ++
  (if !truthyB args.offline && !truthyB args.auto_run then
    [Event.displayMd "To find items on the screen, Open Interpreter has been instructed to send screenshots to [api.openinterpreter.com](https://api.openinterpreter.com/) (we do not store them). Add `--offline` to attempt this locally.",
      Event.printMsg ""]
  else []) ++
  (if !truthyB args.auto_run then
    [Event.displayMd "**Make sure that screen recording permissions are enabled for your Terminal or Python environment.**",
      Event.printMsg ""]
  else []) ++
  [Event.runPython "import time\nfrom interpreter import interpreter\ncomputer = interpreter.interpreter.computer" (truthyB args.verbose)] ++
  (if !truthyB args.auto_run then
    [Event.displayMd "**Warning:** In this mode, Open Interpreter will not require approval before performing actions. Be ready to close your terminal.",
      Event.printMsg ""]
  else [])

/-- The `if args.os:` block (source lines 336-525): bulk-mutates the state,
defaults the model, installs the system prompt (offline-stripped when asked),
runs provisioning, and finally rewrites the profile selection to `"os.py"`. -/
def osExpand (args : ParsedArgs) (env : OsEnv) (input : String) (st : InterpreterState) :
    ParsedArgs × InterpreterState × List Event :=
  let st := { st with os := true, llm := { st.llm with supports_vision := true } }
  let args := if truthyStr args.model then args else { args with model := some "gpt-4-vision-preview" }
  let st := { st with
    llm := { st.llm with
      supports_functions := some false
      context_window := some 110000
      max_tokens := some 4096 }
    auto_run := true
    force_task_completion := true }
  let st := { st with system_message := osSystemMessage }
  let st := if truthyB args.offline then { st with system_message := osOfflineSystemMessage } else st
  let evs := osProvisionEvents env input args
  let args := { args with profile := some "os.py" }
  (args, st, evs)

/-- Mode expansion in source order: `fast` and `vision` rewrite the profile
selection, `os` runs the whole OS-control block, `local` rewrites the profile
selection last. -/
def modeExpand (args : ParsedArgs) (env : OsEnv) (input : String) (st : InterpreterState) :
    ParsedArgs × InterpreterState × List Event :=
  let args := if truthyB args.fast then { args with profile := some "fast.yaml" } else args
  let args := if truthyB args.vision then { args with profile := some "vision.yaml" } else args
  let r := if truthyB args.os then osExpand args env input st else (args, st, ([] : List Event))
  let args := r.1
  let st := r.2.1
  let evs := r.2.2
  let args := if truthyB args.«local» then { args with profile := some "local.py" } else args
  (args, st, evs)

/-- The profile name handed to the external loader:
`args.profile or <schema default "default.yaml">`. -/
def effectiveProfile (args : ParsedArgs) : String :=
  match args.profile with
  | some p => if p = "" then "default.yaml" else p
  | none => "default.yaml"

/-- First statement of the model-default inferencer: the `gpt-4` exact-match
branch and its `gpt-4*` prefix `elif`, each filling `context_window`,
`max_tokens` and `supports_functions` only where currently `None`. -/
def modelDefaultsGpt4 (st : InterpreterState) : InterpreterState :=
  if st.llm.model = "gpt-4" ∨ st.llm.model = "openai/gpt-4" then
    { st with llm := { st.llm with
        context_window := if st.llm.context_window = none then some 6500 else st.llm.context_window
        max_tokens := if st.llm.max_tokens = none then some 4096 else st.llm.max_tokens
        supports_functions :=
          if st.llm.supports_functions = none then
            some (if strHas st.llm.model "vision" then false else true)
          else st.llm.supports_functions } }
  else if strStarts st.llm.model "gpt-4" ∨ strStarts st.llm.model "openai/gpt-4" then
    { st with llm := { st.llm with
        context_window := if st.llm.context_window = none then some 123000 else st.llm.context_window
        max_tokens := if st.llm.max_tokens = none then some 4096 else st.llm.max_tokens
        supports_functions :=
          if st.llm.supports_functions = none then
            some (if strHas st.llm.model "vision" then false else true)
          else st.llm.supports_functions } }
  else st

/-- Second statement of the model-default inferencer: the independent
`gpt-3.5-turbo*` prefix check. -/
def modelDefaultsGpt35 (st : InterpreterState) : InterpreterState :=
  if strStarts st.llm.model "gpt-3.5-turbo" ∨ strStarts st.llm.model "openai/gpt-3.5-turbo" then
    { st with llm := { st.llm with
        context_window := if st.llm.context_window = none then some 16000 else st.llm.context_window
        max_tokens := if st.llm.max_tokens = none then some 4096 else st.llm.max_tokens
        supports_functions :=
          if st.llm.supports_functions = none then some true
          else st.llm.supports_functions } }
  else st

/-- The model-default inferencer (source lines 544-574): the two statements in
sequence. -/
def modelDefaults (st : InterpreterState) : InterpreterState :=
  modelDefaultsGpt35 (modelDefaultsGpt4 st)

/-- The api-base model-name rewrite (source lines 589-600): with a truthy
`api_base`, a model name with no known provider prefix (case-insensitively)
gains `openai/`; else a `jan/`-prefixed name loses that prefix; else nothing. -/
def apiBaseRewrite (st : InterpreterState) : InterpreterState :=
  if truthyStr st.llm.api_base then
    if !(strStarts (strLower st.llm.model) "openai/"
        || strStarts (strLower st.llm.model) "azure/"
        || strStarts (strLower st.llm.model) "ollama"
        || strStarts (strLower st.llm.model) "jan"
        || strStarts (strLower st.llm.model) "local") then
      { st with llm := { st.llm with model := "openai/" ++ st.llm.model } }
    else if strStarts (strLower st.llm.model) "jan/" then
      { st with llm := { st.llm with model := strDrop st.llm.model 4 } }
    else st
  else st

/-- The state right after the post-profile binder pass: safe-mode guard, mode
expansion, binder, profile application, binder again. -/
def postBinderState (args : ParsedArgs) (env : OsEnv) (input : String)
    (profileApply : String → InterpreterState → InterpreterState)
    (st : InterpreterState) : InterpreterState :=
  let r := modeExpand args env input (safeModeGuard st)
  set_attributes r.1 (profileApply (effectiveProfile r.1) (set_attributes r.1 r.2.1))

/-- Full resolution: the post-profile binder state, then model-default
inference, then the api-base model rewrite.  (The update check between the
two is an external, silently-swallowed call with no state effect here.) -/
def resolveState (args : ParsedArgs) (env : OsEnv) (input : String)
    (profileApply : String → InterpreterState → InterpreterState)
    (st : InterpreterState) : InterpreterState :=
  apiBaseRewrite (modelDefaults (postBinderState args env input profileApply st))

/-- Where one invocation of `start_terminal_interface` ends up. -/
inductive Outcome where
  | exited (code : Nat)
  | openedStorage (dir : String)
  | resetProfileCalled (name : Option String)
  | printedVersion
  | ranConversations
  | ranServer
  | chat
deriving DecidableEq, Repr

/-- Result of one invocation: how it ended, the interpreter object it left
behind, and the event trace it emitted. -/
structure RunResult where
  outcome : Outcome
  state : InterpreterState
  events : List Event
deriving DecidableEq, Repr

/-- `start_terminal_interface`: parse, fail hard on unknown arguments,
dispatch the short-circuit flags, then resolve and hand off to the
conversation navigator, the server or the chat loop.  `unknown` is the second
component of `parse_known_args`. -/
def start_terminal_interface (raw : RawCLI) (unknown : List String)
    (env : OsEnv) (input : String)
    (profileApply : String → InterpreterState → InterpreterState)
    (st : InterpreterState) : RunResult :=
  let args := parseArgs raw
  if unknown ≠ [] then
    { outcome := .exited 1
      state := st
      events := [Event.printUnrecognized unknown, Event.printUsage,
        Event.printMsg "For detailed documentation of supported arguments, please visit: https://docs.openinterpreter.com/settings/all-settings"] }
  else if truthyB args.profiles then
    { outcome := .openedStorage "profiles", state := st, events := [] }
  else if truthyB args.local_models then
    { outcome := .openedStorage "models", state := st, events := [] }
  else if args.reset_profile ≠ none ∧ args.reset_profile ≠ some "NOT_PROVIDED" then
    { outcome := .resetProfileCalled args.reset_profile, state := st, events := [] }
  else if truthyB args.version then
    { outcome := .printedVersion, state := st, events := [Event.printVersion] }
  else
    let r := modeExpand args env input (safeModeGuard st)
    let st2 := set_attributes r.1 (profileApply (effectiveProfile r.1) (set_attributes r.1 r.2.1))
    let st3 := apiBaseRewrite (modelDefaults st2)
    if truthyB args.conversations then
      { outcome := .ranConversations, state := st3, events := r.2.2 }
    else if truthyB args.server then
      { outcome := .ranServer, state := st3, events := r.2.2 }
    else
      { outcome := .chat, state := st3, events := r.2.2 }

/-- A raw command line with nothing supplied. -/
def rawNone : RawCLI where
  profile := none
  custom_instructions := none
  system_message := none
  auto_run := false
  verbose := false
  model := none
  temperature := none
  llm_supports_vision := none
  llm_supports_functions := none
  context_window := none
  max_tokens := none
  max_budget := none
  api_base := none
  api_key := none
  api_version := none
  max_output := none
  force_task_completion := false
  disable_telemetry := false
  offline := false
  speak_messages := false
  safe_mode := none
  debug := false
  fast := false
  multi_line := false
  «local» := false
  vision := false
  os := false
  reset_profile := .absent
  profiles := false
  local_models := false
  conversations := false
  server := false
  version := false

/-- A concrete incoming interpreter object, with the library defaults the
surrounding runtime would carry (model set, tunables unset). -/
def stDefault : InterpreterState where
  custom_instructions := ""
  system_message := "You are Open Interpreter."
  auto_run := false
  verbose := false
  max_output := 2800
  force_task_completion := false
  disable_telemetry := false
  offline := false
  speak_messages := false
  safe_mode := "off"
  debug := false
  multi_line := false
  os := false
  llm :=
    { model := "gpt-4-turbo"
      temperature := none
      supports_vision := false
      supports_functions := none
      context_window := none
      max_tokens := none
      max_budget := none
      api_base := none
      api_key := none
      api_version := none }

/-- An import environment in which every optional package is present. -/
def envAll : OsEnv where
  imp0 := fun _ => true
  imp1 := fun _ => true
  imp2 := fun _ => true


/-- The parsed-argument vector after mode expansion rewrites only the
`profile` and `model` slots: the model slot, for the default the `os` branch
injects when none was supplied. -/
def expandedModel (args : ParsedArgs) : Option String :=
  if truthyB args.os && !truthyStr args.model then some "gpt-4-vision-preview" else args.model

/-- The profile slot after mode expansion, with the source's override order:
`local` past `os` past `vision` past `fast`. -/
def expandedProfile (args : ParsedArgs) : Option String :=
  if truthyB args.«local» then some "local.py"
  else if truthyB args.os then some "os.py"
  else if truthyB args.vision then some "vision.yaml"
  else if truthyB args.fast then some "fast.yaml"
  else args.profile

/-- The state mutation performed by the `os` branch of mode expansion. -/
def osStateUpdate (args : ParsedArgs) (st : InterpreterState) : InterpreterState :=
  { st with
      os := true
      auto_run := true
      force_task_completion := true
      system_message := if truthyB args.offline then osOfflineSystemMessage else osSystemMessage
      llm := { st.llm with
        supports_vision := true
        supports_functions := some false
        context_window := some 110000
        max_tokens := some 4096 } }

/-- A profile that sets the safety fields, as e.g. a hardened profile would. -/
def profileSetsSafety : String → InterpreterState → InterpreterState :=
  fun _ st => { st with safe_mode := "auto", disable_telemetry := true }

/-- An import environment in which `cv2` is missing and stays missing through
both install attempts. -/
def envMissingCv2 : OsEnv where
  imp0 := fun p => !(p == "cv2")
  imp1 := fun p => !(p == "cv2")
  imp2 := fun p => !(p == "cv2")

/-- A raw command line that supplies only `--os`. -/
def rawOs : RawCLI := { rawNone with os := true }

/-- A raw command line that supplies `--model llama2` and an api base. -/
def rawApiLlama : RawCLI :=
  { rawNone with model := some "llama2", api_base := some "http://localhost:1234" }

/-- A resolved state with an api base and the unprefixed model name `llama2`. -/
def stLlama : InterpreterState :=
  { stDefault with llm := { stDefault.llm with model := "llama2", api_base := some "http://localhost:1234" } }

/-- A resolved state with an api base and the model name `jan/llama2`. -/
def stJan : InterpreterState :=
  { stDefault with llm := { stDefault.llm with model := "jan/llama2", api_base := some "http://localhost:1234" } }

@[simp] theorem setIf_some {α : Type} (x : α) (c : α) : setIf (some x) c = x := rfl

@[simp] theorem setIf_none {α : Type} (c : α) : setIf (none : Option α) c = c := rfl

@[simp] theorem setIfOpt_some {α : Type} (x : α) (c : Option α) : setIfOpt (some x) c = some x := rfl

@[simp] theorem setIfOpt_none {α : Type} (c : Option α) : setIfOpt (none : Option α) c = c := rfl

/-- Mode expansion rewrites only the `profile` and `model` slots of the
parsed arguments. -/
theorem modeExpand_args (args : ParsedArgs) (env : OsEnv) (input : String) (st : InterpreterState) :
    (modeExpand args env input st).1 =
      { args with profile := expandedProfile args, model := expandedModel args } := by
  unfold modeExpand osExpand expandedProfile expandedModel
  repeat' split <;> (try rfl) <;> (try simp_all)

/-- With the `os` flag, mode expansion performs exactly the `os` bulk state
update. -/
theorem modeExpand_state_os_true (args : ParsedArgs) (env : OsEnv) (input : String)
    (st : InterpreterState) (h : truthyB args.os = true) :
    (modeExpand args env input st).2.1 = osStateUpdate args st := by
  unfold modeExpand osExpand osStateUpdate
  repeat' split <;> (try rfl) <;> (try simp_all)

/-- Without the `os` flag, mode expansion leaves the state untouched. -/
theorem modeExpand_state_os_false (args : ParsedArgs) (env : OsEnv) (input : String)
    (st : InterpreterState) (h : truthyB args.os = false) :
    (modeExpand args env input st).2.1 = st := by
  unfold modeExpand
  repeat' split <;> (try rfl) <;> (try simp_all)


/-- The model-default inferencer touches no field of the interpreter object
other than the three llm tunables. -/
@[simp] theorem modelDefaults_custom_instructions (st : InterpreterState) :
    (modelDefaults st).custom_instructions = st.custom_instructions := by
  unfold modelDefaults modelDefaultsGpt35 modelDefaultsGpt4
  repeat' split <;> (try rfl) <;> (try simp_all)

@[simp] theorem modelDefaults_system_message (st : InterpreterState) :
    (modelDefaults st).system_message = st.system_message := by
  unfold modelDefaults modelDefaultsGpt35 modelDefaultsGpt4
  repeat' split <;> (try rfl) <;> (try simp_all)

@[simp] theorem modelDefaults_auto_run (st : InterpreterState) :
    (modelDefaults st).auto_run = st.auto_run := by
  unfold modelDefaults modelDefaultsGpt35 modelDefaultsGpt4
  repeat' split <;> (try rfl) <;> (try simp_all)

@[simp] theorem modelDefaults_verbose (st : InterpreterState) :
    (modelDefaults st).verbose = st.verbose := by
  unfold modelDefaults modelDefaultsGpt35 modelDefaultsGpt4
  repeat' split <;> (try rfl) <;> (try simp_all)

@[simp] theorem modelDefaults_max_output (st : InterpreterState) :
    (modelDefaults st).max_output = st.max_output := by
  unfold modelDefaults modelDefaultsGpt35 modelDefaultsGpt4
  repeat' split <;> (try rfl) <;> (try simp_all)

@[simp] theorem modelDefaults_force_task_completion (st : InterpreterState) :
    (modelDefaults st).force_task_completion = st.force_task_completion := by
  unfold modelDefaults modelDefaultsGpt35 modelDefaultsGpt4
  repeat' split <;> (try rfl) <;> (try simp_all)

@[simp] theorem modelDefaults_disable_telemetry (st : InterpreterState) :
    (modelDefaults st).disable_telemetry = st.disable_telemetry := by
  unfold modelDefaults modelDefaultsGpt35 modelDefaultsGpt4
  repeat' split <;> (try rfl) <;> (try simp_all)

@[simp] theorem modelDefaults_offline (st : InterpreterState) :
    (modelDefaults st).offline = st.offline := by
  unfold modelDefaults modelDefaultsGpt35 modelDefaultsGpt4
  repeat' split <;> (try rfl) <;> (try simp_all)

@[simp] theorem modelDefaults_speak_messages (st : InterpreterState) :
    (modelDefaults st).speak_messages = st.speak_messages := by
  unfold modelDefaults modelDefaultsGpt35 modelDefaultsGpt4
  repeat' split <;> (try rfl) <;> (try simp_all)

@[simp] theorem modelDefaults_safe_mode (st : InterpreterState) :
    (modelDefaults st).safe_mode = st.safe_mode := by
  unfold modelDefaults modelDefaultsGpt35 modelDefaultsGpt4
  repeat' split <;> (try rfl) <;> (try simp_all)

@[simp] theorem modelDefaults_debug (st : InterpreterState) :
    (modelDefaults st).debug = st.debug := by
  unfold modelDefaults modelDefaultsGpt35 modelDefaultsGpt4
  repeat' split <;> (try rfl) <;> (try simp_all)

@[simp] theorem modelDefaults_multi_line (st : InterpreterState) :
    (modelDefaults st).multi_line = st.multi_line := by
  unfold modelDefaults modelDefaultsGpt35 modelDefaultsGpt4
  repeat' split <;> (try rfl) <;> (try simp_all)

@[simp] theorem modelDefaults_llm_model (st : InterpreterState) :
    (modelDefaults st).llm.model = st.llm.model := by
  unfold modelDefaults modelDefaultsGpt35 modelDefaultsGpt4
  repeat' split <;> (try rfl) <;> (try simp_all)

@[simp] theorem modelDefaults_llm_temperature (st : InterpreterState) :
    (modelDefaults st).llm.temperature = st.llm.temperature := by
  unfold modelDefaults modelDefaultsGpt35 modelDefaultsGpt4
  repeat' split <;> (try rfl) <;> (try simp_all)

@[simp] theorem modelDefaults_llm_supports_vision (st : InterpreterState) :
    (modelDefaults st).llm.supports_vision = st.llm.supports_vision := by
  unfold modelDefaults modelDefaultsGpt35 modelDefaultsGpt4
  repeat' split <;> (try rfl) <;> (try simp_all)

@[simp] theorem modelDefaults_llm_max_budget (st : InterpreterState) :
    (modelDefaults st).llm.max_budget = st.llm.max_budget := by
  unfold modelDefaults modelDefaultsGpt35 modelDefaultsGpt4
  repeat' split <;> (try rfl) <;> (try simp_all)

@[simp] theorem modelDefaults_llm_api_base (st : InterpreterState) :
    (modelDefaults st).llm.api_base = st.llm.api_base := by
  unfold modelDefaults modelDefaultsGpt35 modelDefaultsGpt4
  repeat' split <;> (try rfl) <;> (try simp_all)

@[simp] theorem modelDefaults_llm_api_key (st : InterpreterState) :
    (modelDefaults st).llm.api_key = st.llm.api_key := by
  unfold modelDefaults modelDefaultsGpt35 modelDefaultsGpt4
  repeat' split <;> (try rfl) <;> (try simp_all)

@[simp] theorem modelDefaults_llm_api_version (st : InterpreterState) :
    (modelDefaults st).llm.api_version = st.llm.api_version := by
  unfold modelDefaults modelDefaultsGpt35 modelDefaultsGpt4
  repeat' split <;> (try rfl) <;> (try simp_all)

/-- The inferencer never overrides a context window that is already set. -/
theorem modelDefaults_context_window_some (st : InterpreterState) (v : Int)
    (h : st.llm.context_window = some v) : (modelDefaults st).llm.context_window = some v := by
  unfold modelDefaults modelDefaultsGpt35 modelDefaultsGpt4
  repeat' split <;> (try rfl) <;> (try simp_all)

/-- The inferencer never overrides a max-tokens value that is already set. -/
theorem modelDefaults_max_tokens_some (st : InterpreterState) (v : Int)
    (h : st.llm.max_tokens = some v) : (modelDefaults st).llm.max_tokens = some v := by
  unfold modelDefaults modelDefaultsGpt35 modelDefaultsGpt4
  repeat' split <;> (try rfl) <;> (try simp_all)

/-- The inferencer never overrides a function-support flag that is already set. -/
theorem modelDefaults_supports_functions_some (st : InterpreterState) (v : Bool)
    (h : st.llm.supports_functions = some v) : (modelDefaults st).llm.supports_functions = some v := by
  unfold modelDefaults modelDefaultsGpt35 modelDefaultsGpt4
  repeat' split <;> (try rfl) <;> (try simp_all)


/-- The api-base rewrite touches nothing but the model name. -/
@[simp] theorem apiBaseRewrite_custom_instructions (st : InterpreterState) :
    (apiBaseRewrite st).custom_instructions = st.custom_instructions := by
  unfold apiBaseRewrite
  repeat' split <;> (try rfl) <;> (try simp_all)

@[simp] theorem apiBaseRewrite_system_message (st : InterpreterState) :
    (apiBaseRewrite st).system_message = st.system_message := by
  unfold apiBaseRewrite
  repeat' split <;> (try rfl) <;> (try simp_all)

@[simp] theorem apiBaseRewrite_auto_run (st : InterpreterState) :
    (apiBaseRewrite st).auto_run = st.auto_run := by
  unfold apiBaseRewrite
  repeat' split <;> (try rfl) <;> (try simp_all)

@[simp] theorem apiBaseRewrite_verbose (st : InterpreterState) :
    (apiBaseRewrite st).verbose = st.verbose := by
  unfold apiBaseRewrite
  repeat' split <;> (try rfl) <;> (try simp_all)

@[simp] theorem apiBaseRewrite_max_output (st : InterpreterState) :
    (apiBaseRewrite st).max_output = st.max_output := by
  unfold apiBaseRewrite
  repeat' split <;> (try rfl) <;> (try simp_all)

@[simp] theorem apiBaseRewrite_force_task_completion (st : InterpreterState) :
    (apiBaseRewrite st).force_task_completion = st.force_task_completion := by
  unfold apiBaseRewrite
  repeat' split <;> (try rfl) <;> (try simp_all)

@[simp] theorem apiBaseRewrite_disable_telemetry (st : InterpreterState) :
    (apiBaseRewrite st).disable_telemetry = st.disable_telemetry := by
  unfold apiBaseRewrite
  repeat' split <;> (try rfl) <;> (try simp_all)

@[simp] theorem apiBaseRewrite_offline (st : InterpreterState) :
    (apiBaseRewrite st).offline = st.offline := by
  unfold apiBaseRewrite
  repeat' split <;> (try rfl) <;> (try simp_all)

@[simp] theorem apiBaseRewrite_speak_messages (st : InterpreterState) :
    (apiBaseRewrite st).speak_messages = st.speak_messages := by
  unfold apiBaseRewrite
  repeat' split <;> (try rfl) <;> (try simp_all)

@[simp] theorem apiBaseRewrite_safe_mode (st : InterpreterState) :
    (apiBaseRewrite st).safe_mode = st.safe_mode := by
  unfold apiBaseRewrite
  repeat' split <;> (try rfl) <;> (try simp_all)

@[simp] theorem apiBaseRewrite_debug (st : InterpreterState) :
    (apiBaseRewrite st).debug = st.debug := by
  unfold apiBaseRewrite
  repeat' split <;> (try rfl) <;> (try simp_all)

@[simp] theorem apiBaseRewrite_multi_line (st : InterpreterState) :
    (apiBaseRewrite st).multi_line = st.multi_line := by
  unfold apiBaseRewrite
  repeat' split <;> (try rfl) <;> (try simp_all)

@[simp] theorem apiBaseRewrite_llm_temperature (st : InterpreterState) :
    (apiBaseRewrite st).llm.temperature = st.llm.temperature := by
  unfold apiBaseRewrite
  repeat' split <;> (try rfl) <;> (try simp_all)

@[simp] theorem apiBaseRewrite_llm_supports_vision (st : InterpreterState) :
    (apiBaseRewrite st).llm.supports_vision = st.llm.supports_vision := by
  unfold apiBaseRewrite
  repeat' split <;> (try rfl) <;> (try simp_all)

@[simp] theorem apiBaseRewrite_llm_supports_functions (st : InterpreterState) :
    (apiBaseRewrite st).llm.supports_functions = st.llm.supports_functions := by
  unfold apiBaseRewrite
  repeat' split <;> (try rfl) <;> (try simp_all)

@[simp] theorem apiBaseRewrite_llm_context_window (st : InterpreterState) :
    (apiBaseRewrite st).llm.context_window = st.llm.context_window := by
  unfold apiBaseRewrite
  repeat' split <;> (try rfl) <;> (try simp_all)

@[simp] theorem apiBaseRewrite_llm_max_tokens (st : InterpreterState) :
    (apiBaseRewrite st).llm.max_tokens = st.llm.max_tokens := by
  unfold apiBaseRewrite
  repeat' split <;> (try rfl) <;> (try simp_all)

@[simp] theorem apiBaseRewrite_llm_max_budget (st : InterpreterState) :
    (apiBaseRewrite st).llm.max_budget = st.llm.max_budget := by
  unfold apiBaseRewrite
  repeat' split <;> (try rfl) <;> (try simp_all)

@[simp] theorem apiBaseRewrite_llm_api_base (st : InterpreterState) :
    (apiBaseRewrite st).llm.api_base = st.llm.api_base := by
  unfold apiBaseRewrite
  repeat' split <;> (try rfl) <;> (try simp_all)

@[simp] theorem apiBaseRewrite_llm_api_key (st : InterpreterState) :
    (apiBaseRewrite st).llm.api_key = st.llm.api_key := by
  unfold apiBaseRewrite
  repeat' split <;> (try rfl) <;> (try simp_all)

@[simp] theorem apiBaseRewrite_llm_api_version (st : InterpreterState) :
    (apiBaseRewrite st).llm.api_version = st.llm.api_version := by
  unfold apiBaseRewrite
  repeat' split <;> (try rfl) <;> (try simp_all)

/-- Without a truthy api base the rewrite is the identity. -/
theorem apiBaseRewrite_of_not_truthy (st : InterpreterState)
    (h : truthyStr st.llm.api_base = false) : apiBaseRewrite st = st := by
  unfold apiBaseRewrite
  simp [h]

/-- The rewrite can only leave the model name alone, prefix it with
`openai/`, or strip its first four characters. -/
theorem apiBaseRewrite_model_cases (st : InterpreterState) :
    (apiBaseRewrite st).llm.model = st.llm.model ∨
    (apiBaseRewrite st).llm.model = "openai/" ++ st.llm.model ∨
    (apiBaseRewrite st).llm.model = strDrop st.llm.model 4 := by
  unfold apiBaseRewrite
  repeat' split <;> (try simp_all)

/-- A string that starts with `jan/` starts with `jan`. -/
theorem strStarts_jan_of_jan_slash (s : String) (h : strStarts s "jan/" = true) :
    strStarts s "jan" = true := by
  unfold strStarts at *
  rw [List.isPrefixOf_iff_prefix] at *
  exact List.IsPrefix.trans (by decide) h


/-- C5: if the argument vector contains unrecognized flag tokens, the program
prints a message enumerating exactly those tokens plus usage and a
documentation link, exits with status 1, and performs no mutation of the
interpreter or llm objects (no binder pass, no mode expansion). -/
theorem unknownArgsExitNoMutation (raw : RawCLI) (unknown : List String)
    (env : OsEnv) (input : String)
    (f : String → InterpreterState → InterpreterState) (st : InterpreterState)
    (h : unknown ≠ []) :
    start_terminal_interface raw unknown env input f st =
      { outcome := .exited 1
        state := st
        events := [Event.printUnrecognized unknown, Event.printUsage,
          Event.printMsg "For detailed documentation of supported arguments, please visit: https://docs.openinterpreter.com/settings/all-settings"] } := by
  simp only [start_terminal_interface]
  rw [if_pos h]

/-- Witness for C5 at the concrete unknown flag `--not-a-real-flag`. -/
theorem unknownArgsExitNoMutation_witness :
    start_terminal_interface rawNone ["--not-a-real-flag"] envAll "y" (fun _ s => s) stDefault =
      { outcome := .exited 1
        state := stDefault
        events := [Event.printUnrecognized ["--not-a-real-flag"], Event.printUsage,
          Event.printMsg "For detailed documentation of supported arguments, please visit: https://docs.openinterpreter.com/settings/all-settings"] } :=
  unknownArgsExitNoMutation rawNone ["--not-a-real-flag"] envAll "y" (fun _ s => s) stDefault
    (by decide)

/-- C3 (code bug): `--reset_profile myprofile` calls the reset function and
returns early with the state untouched, and an absent flag proceeds to chat;
but a bare `--reset_profile` (value `None`) also proceeds to chat instead of
resetting all default profiles, because the dispatch condition
`args.reset_profile is not None and args.reset_profile != "NOT_PROVIDED"`
excludes the very `None` its own comment and help text promise to handle. -/
theorem resetProfileBareNoReset :
    (start_terminal_interface { rawNone with reset_profile := .withName "myprofile" } [] envAll "y"
        (fun _ s => s) stDefault).outcome = Outcome.resetProfileCalled (some "myprofile") ∧
    (start_terminal_interface { rawNone with reset_profile := .withName "myprofile" } [] envAll "y"
        (fun _ s => s) stDefault).state = stDefault ∧
    (start_terminal_interface rawNone [] envAll "y" (fun _ s => s) stDefault).outcome =
      Outcome.chat ∧
    (start_terminal_interface { rawNone with reset_profile := .bare } [] envAll "y"
        (fun _ s => s) stDefault).outcome = Outcome.chat :=
  ⟨rfl, rfl, rfl, rfl⟩

/-- C2 (code bug): with no safety flag on the command line, the parsed
`safe_mode` still carries the schema default `"off"` (and `disable_telemetry`
carries `False`), and the post-profile binder pass re-applies those defaults,
overwriting the values the profile just set. -/
theorem schemaDefaultsStompProfile :
    (profileSetsSafety "default.yaml" stDefault).safe_mode = "auto" ∧
    (profileSetsSafety "default.yaml" stDefault).disable_telemetry = true ∧
    (parseArgs rawNone).safe_mode = some "off" ∧
    (parseArgs rawNone).disable_telemetry = some false ∧
    (resolveState (parseArgs rawNone) envAll "y" profileSetsSafety stDefault).safe_mode = "off" ∧
    (resolveState (parseArgs rawNone) envAll "y" profileSetsSafety stDefault).disable_telemetry =
      false :=
  ⟨rfl, rfl, rfl, rfl, rfl, rfl⟩

/-- C4 (code bug): in OS-control mode with `cv2` missing and the user
answering `n` to the install prompt, the decline guidance is printed and the
mode still activates — but the `pip` and `pip3` install subprocesses run
anyway, because the install loop is not guarded by the user's answer. -/
theorem osDeclineStillInstalls :
    Event.printMsg "\nPlease try to install them manually.\n\n" ∈
      (start_terminal_interface rawOs [] envMissingCv2 "n" (fun _ s => s) stDefault).events ∧
    Event.runShell (pipCommand "pip") ∈
      (start_terminal_interface rawOs [] envMissingCv2 "n" (fun _ s => s) stDefault).events ∧
    Event.runShell (pipCommand "pip3") ∈
      (start_terminal_interface rawOs [] envMissingCv2 "n" (fun _ s => s) stDefault).events ∧
    Event.displayMd "> `OS Control` enabled" ∈
      (start_terminal_interface rawOs [] envMissingCv2 "n" (fun _ s => s) stDefault).events ∧
    (start_terminal_interface rawOs [] envMissingCv2 "n" (fun _ s => s) stDefault).outcome =
      Outcome.chat := by
  refine ⟨?_, ?_, ?_, ?_, rfl⟩ <;> decide

/-- C6: the `os` flag makes mode expansion (which runs before the first
binder pass) set vision support, disable function calling, fix the context
window at 110000 and max tokens at 4096, enable auto-run and
force-task-completion, and install the fixed non-empty system prompt; with
`offline` also set, the single icon-based mouse-targeting line is removed
from that prompt. -/
theorem osModeExpansionSetsFields (args : ParsedArgs) (env : OsEnv) (input : String)
    (st : InterpreterState) (h : truthyB args.os = true) :
    (modeExpand args env input st).2.1.llm.supports_vision = true ∧
    (modeExpand args env input st).2.1.llm.supports_functions = some false ∧
    (modeExpand args env input st).2.1.llm.context_window = some 110000 ∧
    (modeExpand args env input st).2.1.llm.max_tokens = some 4096 ∧
    (modeExpand args env input st).2.1.auto_run = true ∧
    (modeExpand args env input st).2.1.force_task_completion = true ∧
    (modeExpand args env input st).2.1.system_message =
      (if truthyB args.offline then osOfflineSystemMessage else osSystemMessage) ∧
    osSystemMessage ≠ "" ∧
    osOfflineSystemMessage ≠ "" ∧
    List.count iconLine osSystemMessageLines = 1 ∧
    osOfflineSystemMessage = joinLines (osSystemMessageLines.filter (fun l => l != iconLine)) ∧
    iconLine ∉ osSystemMessageLines.filter (fun l => l != iconLine) := by
  rw [modeExpand_state_os_true args env input st h]
  refine ⟨rfl, rfl, rfl, rfl, rfl, rfl, rfl, ?_, ?_, ?_, rfl, ?_⟩
  · decide
  · decide
  · decide
  · decide

/-- Witness for C6 with only `--os` supplied. -/
theorem osModeExpansionSetsFields_witness :
    (modeExpand (parseArgs rawOs) envAll "y" stDefault).2.1.llm.supports_vision = true ∧
    (modeExpand (parseArgs rawOs) envAll "y" stDefault).2.1.auto_run = true :=
  ⟨(osModeExpansionSetsFields (parseArgs rawOs) envAll "y" stDefault (by decide)).1,
   (osModeExpansionSetsFields (parseArgs rawOs) envAll "y" stDefault (by decide)).2.2.2.2.1⟩

/-- C7: the model-default inferencer fills the llm tunables only where they
are `None`: model `"gpt-4"` with unset context window gets 6500 and with
unset max tokens gets 4096; `"gpt-3.5-turbo-xyz"` with unset context window
gets 16000; `"gpt-4-vision-preview"` with unset function support gets
`False`; and a tunable that is already set is never overridden. -/
theorem modelDefaultsInference (st : InterpreterState) :
    (st.llm.model = "gpt-4" → st.llm.context_window = none →
      (modelDefaults st).llm.context_window = some 6500) ∧
    (st.llm.model = "gpt-4" → st.llm.max_tokens = none →
      (modelDefaults st).llm.max_tokens = some 4096) ∧
    (st.llm.model = "gpt-3.5-turbo-xyz" → st.llm.context_window = none →
      (modelDefaults st).llm.context_window = some 16000) ∧
    (st.llm.model = "gpt-4-vision-preview" → st.llm.supports_functions = none →
      (modelDefaults st).llm.supports_functions = some false) ∧
    (∀ v, st.llm.context_window = some v → (modelDefaults st).llm.context_window = some v) ∧
    (∀ v, st.llm.max_tokens = some v → (modelDefaults st).llm.max_tokens = some v) ∧
    (∀ v, st.llm.supports_functions = some v →
      (modelDefaults st).llm.supports_functions = some v) := by
  refine ⟨?_, ?_, ?_, ?_, fun v hv => modelDefaults_context_window_some st v hv,
    fun v hv => modelDefaults_max_tokens_some st v hv,
    fun v hv => modelDefaults_supports_functions_some st v hv⟩ <;>
  · intro h1 h2
    obtain ⟨ci, sm, ar, vb, mo, ftc, dt, off, spk, saf, dbg, ml, oss, llmc⟩ := st
    obtain ⟨mdl, tmp, sv, sfn, cw, mt, mb, ab, ak, av⟩ := llmc
    simp only at h1 h2
    subst h1; subst h2
    rfl

/-- Witness for C7 at concrete states built on the library defaults. -/
theorem modelDefaultsInference_witness :
    (modelDefaults { stDefault with llm := { stDefault.llm with model := "gpt-4" } }).llm.context_window = some 6500 ∧
    (modelDefaults { stDefault with llm := { stDefault.llm with model := "gpt-3.5-turbo-xyz" } }).llm.context_window = some 16000 ∧
    (modelDefaults { stDefault with llm := { stDefault.llm with model := "gpt-4-vision-preview" } }).llm.supports_functions = some false :=
  ⟨(modelDefaultsInference { stDefault with llm := { stDefault.llm with model := "gpt-4" } }).1 rfl rfl,
   (modelDefaultsInference { stDefault with llm := { stDefault.llm with model := "gpt-3.5-turbo-xyz" } }).2.2.1 rfl rfl,
   (modelDefaultsInference { stDefault with llm := { stDefault.llm with model := "gpt-4-vision-preview" } }).2.2.2.1 rfl rfl⟩

/-- C8: with a truthy api base, a model name that does not start
(case-insensitively) with `openai/`, `azure/`, `ollama`, `jan` or `local` is
rewritten to `openai/` plus itself; a name starting with `jan/` has its
first four characters stripped; otherwise nothing changes — and without a
truthy api base nothing changes.  Concretely `llama2` becomes
`openai/llama2` and `jan/llama2` becomes `llama2`.  The rewrite is a total
function: it never fails. -/
theorem apiBaseModelRewrite (st : InterpreterState) :
    (truthyStr st.llm.api_base = true →
      (strStarts (strLower st.llm.model) "openai/" = false →
        strStarts (strLower st.llm.model) "azure/" = false →
        strStarts (strLower st.llm.model) "ollama" = false →
        strStarts (strLower st.llm.model) "jan" = false →
        strStarts (strLower st.llm.model) "local" = false →
        (apiBaseRewrite st).llm.model = "openai/" ++ st.llm.model) ∧
      (strStarts (strLower st.llm.model) "jan/" = true →
        (apiBaseRewrite st).llm.model = strDrop st.llm.model 4) ∧
      ((strStarts (strLower st.llm.model) "openai/" = true ∨
        strStarts (strLower st.llm.model) "azure/" = true ∨
        strStarts (strLower st.llm.model) "ollama" = true ∨
        strStarts (strLower st.llm.model) "jan" = true ∨
        strStarts (strLower st.llm.model) "local" = true) →
        strStarts (strLower st.llm.model) "jan/" = false →
        apiBaseRewrite st = st)) ∧
    (truthyStr st.llm.api_base = false → apiBaseRewrite st = st) ∧
    (apiBaseRewrite stLlama).llm.model = "openai/llama2" ∧
    (apiBaseRewrite stJan).llm.model = "llama2" := by
  refine ⟨fun ht => ⟨?_, ?_, ?_⟩, fun hf => apiBaseRewrite_of_not_truthy st hf, rfl, rfl⟩
  · intro h1 h2 h3 h4 h5
    unfold apiBaseRewrite
    simp [ht, h1, h2, h3, h4, h5]
  · intro hj
    have hjan := strStarts_jan_of_jan_slash _ hj
    unfold apiBaseRewrite
    simp [ht, hjan, hj]
  · intro hk hnj
    unfold apiBaseRewrite
    rcases hk with hcase | hcase | hcase | hcase | hcase <;> simp [ht, hcase, hnj]

/-- Witness for C8 at the concrete `llama2` state. -/
theorem apiBaseModelRewrite_witness :
    (apiBaseRewrite stLlama).llm.model = "openai/" ++ stLlama.llm.model :=
  ((apiBaseModelRewrite stLlama).1 (by decide)).1 (by decide) (by decide) (by decide)
    (by decide) (by decide)

/-- C9: mode expansion runs before profile resolution and rewrites the
profile selection, so with `--fast` (and no later-winning mode flag) the
loader receives `fast.yaml` whatever `--profile` said; `--vision` selects
`vision.yaml` and `--local` selects `local.py`. -/
theorem modeFlagsPickProfiles (raw : RawCLI) (env : OsEnv) (input : String)
    (st : InterpreterState) :
    (raw.fast = true → raw.vision = false → raw.os = false → raw.«local» = false →
      effectiveProfile (modeExpand (parseArgs raw) env input st).1 = "fast.yaml") ∧
    (raw.vision = true → raw.os = false → raw.«local» = false →
      effectiveProfile (modeExpand (parseArgs raw) env input st).1 = "vision.yaml") ∧
    (raw.«local» = true →
      effectiveProfile (modeExpand (parseArgs raw) env input st).1 = "local.py") := by
  refine ⟨?_, ?_, ?_⟩
  · intro h1 h2 h3 h4
    rw [modeExpand_args]
    simp [effectiveProfile, expandedProfile, parseArgs, storeTrue, truthyB, h1, h2, h3, h4]
  · intro h1 h2 h3
    rw [modeExpand_args]
    simp [effectiveProfile, expandedProfile, parseArgs, storeTrue, truthyB, h1, h2, h3]
  · intro h1
    rw [modeExpand_args]
    simp [effectiveProfile, expandedProfile, parseArgs, storeTrue, truthyB, h1]

/-- Witness for C9: `--fast` together with `--profile custom.yaml`. -/
theorem modeFlagsPickProfiles_witness :
    effectiveProfile (modeExpand (parseArgs { rawNone with fast := true, profile := some "custom.yaml" }) envAll "y" stDefault).1 = "fast.yaml" :=
  (modeFlagsPickProfiles { rawNone with fast := true, profile := some "custom.yaml" } envAll "y"
    stDefault).1 rfl rfl rfl rfl

/-- C10: the guard after the dispatch short-circuits disables `auto_run`
exactly when the incoming object already has `auto_run` set and a protective
`safe_mode`; it reads only that object, so supplying `--auto_run` together
with `--safe_mode ask` does not trigger it, and after binding both are
active simultaneously (for any profile). -/
theorem safeModeGuardReadsObjectState (st : InterpreterState) (env : OsEnv) (input : String)
    (f : String → InterpreterState → InterpreterState) :
    (st.auto_run = true → (st.safe_mode = "ask" ∨ st.safe_mode = "auto") →
      (safeModeGuard st).auto_run = false) ∧
    (st.auto_run = false → safeModeGuard st = st) ∧
    (∀ raw : RawCLI, raw.auto_run = true → raw.safe_mode = some "ask" →
      (resolveState (parseArgs raw) env input f st).auto_run = true ∧
      (resolveState (parseArgs raw) env input f st).safe_mode = "ask") := by
  refine ⟨?_, ?_, ?_⟩
  · intro h1 h2
    unfold safeModeGuard
    rw [if_pos ⟨h1, h2⟩]
  · intro h1
    unfold safeModeGuard
    simp [h1]
  · intro raw h1 h2
    constructor
    · simp [resolveState, postBinderState, set_attributes, modeExpand_args, parseArgs,
        storeTrue, h1]
    · simp [resolveState, postBinderState, set_attributes, modeExpand_args, parseArgs, h2]

/-- Witness for C10: guard fires on the incoming object, and with
`--auto_run --safe_mode ask` both end up active. -/
theorem safeModeGuardReadsObjectState_witness :
    (safeModeGuard { stDefault with auto_run := true, safe_mode := "ask" }).auto_run = false ∧
    (resolveState (parseArgs { rawNone with auto_run := true, safe_mode := some "ask" }) envAll
      "y" (fun _ s => s) stDefault).auto_run = true :=
  ⟨(safeModeGuardReadsObjectState { stDefault with auto_run := true, safe_mode := "ask" } envAll
      "y" (fun _ s => s)).1 rfl (Or.inl rfl),
   ((safeModeGuardReadsObjectState stDefault envAll "y" (fun _ s => s)).2.2
      { rawNone with auto_run := true, safe_mode := some "ask" } rfl rfl).1⟩


/-- C1 (amended): every explicitly supplied option value is present on its
bound target field after the post-profile binder pass, whatever the profile
set; it persists through model-default inference and the api-base rewrite
for every field except the model name, which the api-base step may rewrite
by adding `openai/` or stripping `jan/` when the resolved api base is
truthy (and which, under `--os`, is treated as absent when supplied empty). -/
theorem cliValuesSurviveResolution (raw : RawCLI) (env : OsEnv) (input : String)
    (f : String → InterpreterState → InterpreterState) (st : InterpreterState)
    (hval : rawValid raw) :
    (∀ v, raw.custom_instructions = some v →
      (resolveState (parseArgs raw) env input f st).custom_instructions = v) ∧
    (∀ v, raw.system_message = some v →
      (resolveState (parseArgs raw) env input f st).system_message = v) ∧
    (raw.auto_run = true → (resolveState (parseArgs raw) env input f st).auto_run = true) ∧
    (raw.verbose = true → (resolveState (parseArgs raw) env input f st).verbose = true) ∧
    (∀ v, raw.max_output = some v →
      (resolveState (parseArgs raw) env input f st).max_output = v) ∧
    (raw.force_task_completion = true →
      (resolveState (parseArgs raw) env input f st).force_task_completion = true) ∧
    (raw.disable_telemetry = true →
      (resolveState (parseArgs raw) env input f st).disable_telemetry = true) ∧
    (raw.offline = true → (resolveState (parseArgs raw) env input f st).offline = true) ∧
    (raw.speak_messages = true →
      (resolveState (parseArgs raw) env input f st).speak_messages = true) ∧
    (∀ v, raw.safe_mode = some v →
      (resolveState (parseArgs raw) env input f st).safe_mode = v) ∧
    (raw.debug = true → (resolveState (parseArgs raw) env input f st).debug = true) ∧
    (raw.multi_line = true → (resolveState (parseArgs raw) env input f st).multi_line = true) ∧
    (∀ v, raw.temperature = some v →
      (resolveState (parseArgs raw) env input f st).llm.temperature = some v) ∧
    (∀ v, raw.llm_supports_vision = some v →
      (resolveState (parseArgs raw) env input f st).llm.supports_vision = v) ∧
    (∀ v, raw.llm_supports_functions = some v →
      (resolveState (parseArgs raw) env input f st).llm.supports_functions = some v) ∧
    (∀ v, raw.context_window = some v →
      (resolveState (parseArgs raw) env input f st).llm.context_window = some v) ∧
    (∀ v, raw.max_tokens = some v →
      (resolveState (parseArgs raw) env input f st).llm.max_tokens = some v) ∧
    (∀ v, raw.max_budget = some v →
      (resolveState (parseArgs raw) env input f st).llm.max_budget = some v) ∧
    (∀ v, raw.api_base = some v →
      (resolveState (parseArgs raw) env input f st).llm.api_base = some v) ∧
    (∀ v, raw.api_key = some v →
      (resolveState (parseArgs raw) env input f st).llm.api_key = some v) ∧
    (∀ v, raw.api_version = some v →
      (resolveState (parseArgs raw) env input f st).llm.api_version = some v) ∧
    (∀ v, raw.model = some v → (raw.os = true → v ≠ "") →
      (postBinderState (parseArgs raw) env input f st).llm.model = v ∧
      (truthyStr (resolveState (parseArgs raw) env input f st).llm.api_base = false →
        (resolveState (parseArgs raw) env input f st).llm.model = v) ∧
      ((resolveState (parseArgs raw) env input f st).llm.model = v ∨
       (resolveState (parseArgs raw) env input f st).llm.model = "openai/" ++ v ∨
       (resolveState (parseArgs raw) env input f st).llm.model = strDrop v 4)) := by
  refine ⟨?_, ?_, ?_, ?_, ?_, ?_, ?_, ?_, ?_, ?_, ?_, ?_, ?_, ?_, ?_, ?_, ?_, ?_, ?_, ?_, ?_, ?_⟩
  · intro v hv
    simp [resolveState, postBinderState, set_attributes, modeExpand_args, parseArgs, hv]
  · intro v hv
    simp [resolveState, postBinderState, set_attributes, modeExpand_args, parseArgs, hv]
  · intro hv
    simp [resolveState, postBinderState, set_attributes, modeExpand_args, parseArgs, storeTrue, hv]
  · intro hv
    simp [resolveState, postBinderState, set_attributes, modeExpand_args, parseArgs, storeTrue, hv]
  · intro v hv
    simp [resolveState, postBinderState, set_attributes, modeExpand_args, parseArgs, hv]
  · intro hv
    simp [resolveState, postBinderState, set_attributes, modeExpand_args, parseArgs, storeTrue, hv]
  · intro hv
    simp [resolveState, postBinderState, set_attributes, modeExpand_args, parseArgs, storeTrue, hv]
  · intro hv
    simp [resolveState, postBinderState, set_attributes, modeExpand_args, parseArgs, storeTrue, hv]
  · intro hv
    simp [resolveState, postBinderState, set_attributes, modeExpand_args, parseArgs, storeTrue, hv]
  · intro v hv
    simp [resolveState, postBinderState, set_attributes, modeExpand_args, parseArgs, hv]
  · intro hv
    simp [resolveState, postBinderState, set_attributes, modeExpand_args, parseArgs, storeTrue, hv]
  · intro hv
    simp [resolveState, postBinderState, set_attributes, modeExpand_args, parseArgs, storeTrue, hv]
  · intro v hv
    simp [resolveState, postBinderState, set_attributes, modeExpand_args, parseArgs, hv]
  · intro v hv
    simp [resolveState, postBinderState, set_attributes, modeExpand_args, parseArgs, hv]
  · intro v hv
    have hpb : (postBinderState (parseArgs raw) env input f st).llm.supports_functions = some v := by
      simp [postBinderState, set_attributes, modeExpand_args, parseArgs, hv]
    simp [resolveState, modelDefaults_supports_functions_some _ v hpb]
  · intro v hv
    have hpb : (postBinderState (parseArgs raw) env input f st).llm.context_window = some v := by
      simp [postBinderState, set_attributes, modeExpand_args, parseArgs, hv]
    simp [resolveState, modelDefaults_context_window_some _ v hpb]
  · intro v hv
    have hpb : (postBinderState (parseArgs raw) env input f st).llm.max_tokens = some v := by
      simp [postBinderState, set_attributes, modeExpand_args, parseArgs, hv]
    simp [resolveState, modelDefaults_max_tokens_some _ v hpb]
  · intro v hv
    simp [resolveState, postBinderState, set_attributes, modeExpand_args, parseArgs, hv]
  · intro v hv
    simp [resolveState, postBinderState, set_attributes, modeExpand_args, parseArgs, hv]
  · intro v hv
    simp [resolveState, postBinderState, set_attributes, modeExpand_args, parseArgs, hv]
  · intro v hv
    simp [resolveState, postBinderState, set_attributes, modeExpand_args, parseArgs, hv]
  · intro v hv hos
    have hm : expandedModel (parseArgs raw) = some v := by
      cases hro : raw.os
      · simp [expandedModel, parseArgs, storeTrue, truthyB, hro, hv]
      · have hne := hos hro
        simp [expandedModel, parseArgs, storeTrue, truthyB, truthyStr, bne_iff_ne, hro, hv, hne]
    have hpb : (postBinderState (parseArgs raw) env input f st).llm.model = v := by
      simp [postBinderState, set_attributes, modeExpand_args, hm]
    refine ⟨hpb, ?_, ?_⟩
    · intro hab
      simp only [resolveState] at hab ⊢
      rw [apiBaseRewrite_llm_api_base] at hab
      rw [apiBaseRewrite_of_not_truthy _ hab, modelDefaults_llm_model]
      exact hpb
    · have hc := apiBaseRewrite_model_cases
        (modelDefaults (postBinderState (parseArgs raw) env input f st))
      rw [modelDefaults_llm_model, hpb] at hc
      simpa [resolveState] using hc

/-- Counterexample to C1 as stated: with `--model llama2` and
`--api_base http://localhost:1234` explicitly supplied and the identity
profile, full resolution leaves `openai/llama2` on the bound model field,
not the supplied `llama2`. -/
theorem cliModelRewrittenCounterexample :
    (parseArgs rawApiLlama).model = some "llama2" ∧
    (resolveState (parseArgs rawApiLlama) envAll "y" (fun _ s => s) stDefault).llm.model =
      "openai/llama2" ∧
    ("openai/llama2" : String) ≠ "llama2" :=
  ⟨rfl, rfl, by decide⟩

/-- Witness for C1: a command line supplying two options over a profile that
tries to overwrite one of them. -/
theorem cliValuesSurviveResolution_witness :
    (resolveState (parseArgs { rawNone with custom_instructions := some "be concise", safe_mode := some "ask" }) envAll "y" profileSetsSafety stDefault).custom_instructions = "be concise" ∧
    (resolveState (parseArgs { rawNone with custom_instructions := some "be concise", safe_mode := some "ask" }) envAll "y" profileSetsSafety stDefault).safe_mode = "ask" :=
  ⟨(cliValuesSurviveResolution { rawNone with custom_instructions := some "be concise", safe_mode := some "ask" }
      envAll "y" profileSetsSafety stDefault (by decide)).1 "be concise" rfl,
   (cliValuesSurviveResolution { rawNone with custom_instructions := some "be concise", safe_mode := some "ask" }
      envAll "y" profileSetsSafety stDefault (by decide)).2.2.2.2.2.2.2.2.2.1 "ask" rfl⟩

end STI
